import Mathlib

/-!
Verification of the nitro-snake simulation core (src/src/App.tsx).

The embedding translates the mutable React refs/state into an explicit
`GameState` record and each handler into a pure state-transition function.
Randomness (`Math.random()` inside `populateFoodBall`) is modelled by an
explicit stream of drawn cells; the rejection-sampling loop returns `none`
when the stream is exhausted, which models non-termination of the loop.
JavaScript numbers are modelled as `Int` (all arithmetic in the source is
integer-valued: ±1 steps and `Math.floor` of a scaled random).
The `Set<string>` keyed by the template string `row:col` is modelled as a
`Finset (Int × Int)`; the string key is injective on integer pairs, so set
membership coincides.
-/

-- App.tsx lines 4-6
def COLS : Int := 48

def ROWS : Int := 48

def DEFAULT_LENGTH : Nat := 10

-- App.tsx lines 8-13
inductive Direction where
  | UP
  | DOWN
  | RIGHT
  | LEFT
deriving DecidableEq, Repr

-- App.tsx lines 15-19; the optional `isHead` flag defaults to false
structure Coordinate where
  row : Int
  col : Int
  isHead : Bool := false
deriving DecidableEq, Repr

/-- The mutable session state: the refs `snakeCoordinates`, `direction`,
`snakeCoordinatesMap`, `foodCoords` and the React state `points`,
`gameOver`, `isPlaying` (App.tsx lines 29-41). -/
structure GameState where
  snakeCoordinates : List Coordinate
  direction : Direction
  snakeCoordinatesMap : Finset (Int × Int)
  foodCoords : Int × Int
  points : Nat
  gameOver : Bool
  isPlaying : Nat
deriving DecidableEq

/-- The cell (key) of each body segment, in body order (tail first, head
last).  Models the `map` in `syncSnakeCoordinatesMap` (App.tsx line 102):
each coordinate is sent to its key `row:col`, modelled as the pair. -/
def cells (l : List Coordinate) : List (Int × Int) :=
  l.map fun coord => (coord.row, coord.col)

-- App.tsx lines 100-105: rebuild the occupied set from the body
def syncSnakeCoordinatesMap (snakeCoordinates : List Coordinate) : Finset (Int × Int) :=
  (cells snakeCoordinates).toFinset

-- App.tsx lines 85-98
def getNewDirection (key : String) (current : Direction) : Direction :=
  match key with
  | "ArrowUp" => Direction.UP
  | "ArrowDown" => Direction.DOWN
  | "ArrowRight" => Direction.RIGHT
  | "ArrowLeft" => Direction.LEFT
  | _ => current

-- App.tsx lines 69-83: reject 180-degree turns, otherwise commit
def handleDirectionChange (key : String) (s : GameState) : GameState :=
  let newDirection := getNewDirection key s.direction
  if (s.direction = Direction.UP ∧ newDirection = Direction.DOWN)
      ∨ (s.direction = Direction.DOWN ∧ newDirection = Direction.UP)
      ∨ (s.direction = Direction.LEFT ∧ newDirection = Direction.RIGHT)
      ∨ (s.direction = Direction.RIGHT ∧ newDirection = Direction.LEFT) then
    s
  else
    { s with direction := newDirection }

-- App.tsx lines 176-194: wall collision then membership in the occupied set
def collisionCheck (snakeHead : Coordinate) (map : Finset (Int × Int)) : Bool :=
  if COLS ≤ snakeHead.col ∨ ROWS ≤ snakeHead.row
      ∨ snakeHead.col < 0 ∨ snakeHead.row < 0 then
    true
  else if (snakeHead.row, snakeHead.col) ∈ map then
    true
  else
    false

/-- App.tsx lines 196-213: rejection sampling of a food cell.  `draws` is the
stream of cells produced by the two `Math.floor(Math.random() * _)` calls;
the recursion retries while the drawn cell is occupied.  `none` models the
exhaustion of the stream, i.e. the loop never finding a free cell. -/
def populateFoodBall (map : Finset (Int × Int)) : List (Int × Int) → Option (Int × Int)
  | [] => none
  | (row, col) :: rest =>
    if (row, col) ∈ map then populateFoodBall map rest else some (row, col)

/-- App.tsx lines 126-136: shift every body element one position toward the
tail, overwriting the final slot with a non-head snapshot of the pre-move
head.  `coords` is the body after the head was popped; when it is empty
(a length-1 snake) the `forEach` does nothing. -/
def shiftBody (coords : List Coordinate) (snakeHead : Coordinate) : List Coordinate :=
  if coords.isEmpty then []
  else coords.drop 1 ++ [{ snakeHead with isHead := false }]

-- App.tsx lines 139-152: the direction switch mutating the head coordinate
def applyDirection (snakeHead : Coordinate) (d : Direction) : Coordinate :=
  match d with
  | Direction.UP => { snakeHead with row := snakeHead.row - 1 }
  | Direction.DOWN => { snakeHead with row := snakeHead.row + 1 }
  | Direction.RIGHT => { snakeHead with col := snakeHead.col + 1 }
  | Direction.LEFT => { snakeHead with col := snakeHead.col - 1 }

-- App.tsx lines 229-238 (audio/timer omitted: external collaborators)
def stopGame (s : GameState) : GameState :=
  { s with gameOver := true, isPlaying := 0 }

/-- App.tsx lines 107-174, one tick.  Mirrors the source statement by
statement.  Note that on the collided path the in-place `pop` and shift
have already replaced `snakeCoordinates` with the shifted body and the
occupied set is not re-synced; on the consumed path `populateFoodBall`
and the collision check both read the occupied set synced at the end of
the previous tick.  `snakeTail` is the object at index 0; for a length-1
snake it aliases the head object, whose coordinates were mutated by the
direction switch. -/
def moveSnake (s : GameState) (draws : List (Int × Int)) : Option GameState :=
  if s.gameOver then some s
  else
    match s.snakeCoordinates.getLast? with
    | none => some { s with isPlaying := s.isPlaying + 1 }
    | some snakeHead =>
      let coords := s.snakeCoordinates.dropLast
      let shifted := shiftBody coords snakeHead
      let newHead := applyDirection snakeHead s.direction
      let snakeTail := if coords.isEmpty then newHead else coords.headD snakeHead
      if (snakeHead.row, snakeHead.col) = s.foodCoords then
        match populateFoodBall s.snakeCoordinatesMap draws with
        | none => none
        | some newFood =>
          if collisionCheck newHead s.snakeCoordinatesMap then
            some (stopGame { s with snakeCoordinates := shifted,
                                    points := s.points + 10, foodCoords := newFood,
                                    isPlaying := s.isPlaying + 1 })
          else
            let body := snakeTail :: (shifted ++ [newHead])
            some { s with snakeCoordinates := body,
                          snakeCoordinatesMap := syncSnakeCoordinatesMap body,
                          points := s.points + 10, foodCoords := newFood,
                          isPlaying := s.isPlaying + 1 }
      else
        if collisionCheck newHead s.snakeCoordinatesMap then
          some (stopGame { s with snakeCoordinates := shifted,
                                  isPlaying := s.isPlaying + 1 })
        else
          let body := shifted ++ [newHead]
          some { s with snakeCoordinates := body,
                        snakeCoordinatesMap := syncSnakeCoordinatesMap body,
                        isPlaying := s.isPlaying + 1 }

-- App.tsx lines 53-60 / 242-249: the default straight body
def snakePositionsInit : List Coordinate :=
  (List.range DEFAULT_LENGTH).map fun i => { row := 0, col := (i : Int), isHead := false }

-- App.tsx line 62 / 250: mark the last element as the head
def withHeadMarked (l : List Coordinate) : List Coordinate :=
  match l.getLast? with
  | none => l
  | some h => l.dropLast ++ [{ h with isHead := true }]

/-- App.tsx lines 240-263: reset body, direction, flags and score, then
sync the occupied set and place fresh food against it. -/
def resetGame (s : GameState) (draws : List (Int × Int)) : Option GameState :=
  let snake := withHeadMarked snakePositionsInit
  let map := syncSnakeCoordinatesMap snake
  (populateFoodBall map draws).map fun food =>
    { s with snakeCoordinates := snake, direction := Direction.RIGHT,
             gameOver := false, points := 0,
             snakeCoordinatesMap := map, foodCoords := food }

/-- The state after the mount effect (App.tsx lines 51-67) ran over the
initial refs/state (lines 29-41): the effect performs exactly the body
construction, sync and food placement of `resetGame`, and every other
field already holds its reset value initially. -/
def initState (draws : List (Int × Int)) : Option GameState :=
  resetGame { snakeCoordinates := [], direction := Direction.RIGHT,
              snakeCoordinatesMap := ∅, foodCoords := (-1, -1),
              points := 0, gameOver := false, isPlaying := 0 } draws

-- App.tsx lines 215-227: start resets first when the game was over
def startGame (s : GameState) (draws : List (Int × Int)) : Option GameState :=
  if s.gameOver then resetGame s draws else some s

/-- Grid-model bounds predicate (spec section 4.1; the complement of the
wall test in `collisionCheck`). -/
def inBounds (cell : Int × Int) : Prop :=
  0 ≤ cell.1 ∧ cell.1 < ROWS ∧ 0 ≤ cell.2 ∧ cell.2 < COLS

instance (cell : Int × Int) : Decidable (inBounds cell) := by
  unfold inBounds; infer_instance

/-- The states reachable through the public operations: the mounted session,
direction changes, timer ticks, start, stop and reset. -/
inductive Reachable : GameState → Prop where
  | init (draws : List (Int × Int)) (s : GameState) :
      initState draws = some s → Reachable s
  | dirChange (s : GameState) (key : String) :
      Reachable s → Reachable (handleDirectionChange key s)
  | tick (s : GameState) (draws : List (Int × Int)) (s' : GameState) :
      Reachable s → moveSnake s draws = some s' → Reachable s'
  | start (s : GameState) (draws : List (Int × Int)) (s' : GameState) :
      Reachable s → startGame s draws = some s' → Reachable s'
  | stop (s : GameState) :
      Reachable s → Reachable (stopGame s)
  | reset (s : GameState) (draws : List (Int × Int)) (s' : GameState) :
      Reachable s → resetGame s draws = some s' → Reachable s'

/-! ### Concrete sessions used to evaluate the model

Each `Run` value is a chain of public operations starting from the mounted
session, with the food draws chosen so that the scenario unfolds as named.
-/

/-- The mounted session whose initial food draw landed on `(5, 5)`. -/
def crashRun0 : Option GameState := initState [((5 : Int), (5 : Int))]

/-- Turn UP at once and tick: the candidate head `(-1, 9)` hits the wall. -/
def crashRun1 : Option GameState :=
  crashRun0.bind fun s => moveSnake (handleDirectionChange "ArrowUp" s) []

/-- A tick fired on the freshly mounted (Idle, not started) session. -/
def idleTickRun : Option GameState := crashRun0.bind fun s => moveSnake s []

/-- The mounted session whose initial food draw landed on `(47, 47)`,
far from everything the snake visits in the loop scenario below. -/
def loopRun0 : Option GameState := initState [((47 : Int), (47 : Int))]

/-- Loop scenario, tick 1: turn DOWN, head moves to `(1, 9)`. -/
def loopRun1 : Option GameState :=
  loopRun0.bind fun s => moveSnake (handleDirectionChange "ArrowDown" s) []

/-- Loop scenario, tick 2: turn LEFT, head moves to `(1, 8)`. -/
def loopRun2 : Option GameState :=
  loopRun1.bind fun s => moveSnake (handleDirectionChange "ArrowLeft" s) []

/-- Loop scenario, tick 3: head moves to `(1, 7)`. -/
def loopRun3 : Option GameState := loopRun2.bind fun s => moveSnake s []

/-- Loop scenario, tick 4: head moves to `(1, 6)`. -/
def loopRun4 : Option GameState := loopRun3.bind fun s => moveSnake s []

/-- Loop scenario, tick 5: head moves to `(1, 5)`.  The ten body cells now
form a closed ring on rows 0-1, columns 5-9: the head `(1, 5)` is adjacent
to the tail `(0, 5)`. -/
def loopRun5 : Option GameState := loopRun4.bind fun s => moveSnake s []

/-- Loop scenario, tick 6: turn UP, so the candidate head is the cell
`(0, 5)` just being vacated by the tail. -/
def loopRun6 : Option GameState :=
  loopRun5.bind fun s => moveSnake (handleDirectionChange "ArrowUp" s) []

/-- The mounted session whose initial food draw landed on `(0, 10)`,
directly in the path of the snake. -/
def growRun0 : Option GameState := initState [((0 : Int), (10 : Int))]

/-- Growth scenario, tick 1: the head moves onto the food cell `(0, 10)`;
the pre-move head was `(0, 9)`, so no consumption is detected yet. -/
def growRun1 : Option GameState := growRun0.bind fun s => moveSnake s []

/-- Growth scenario, tick 2: the pre-move head `(0, 10)` equals the food,
so consumption fires; the replacement food draw is `(0, 11)`, which is
exactly the cell the new head steps onto. -/
def growRun2 : Option GameState :=
  growRun1.bind fun s => moveSnake s [((0 : Int), (11 : Int))]

/-- The mounted session state with food at `(5, 5)`, written out. -/
def initialSessionState : GameState :=
  { snakeCoordinates := [⟨0, 0, false⟩, ⟨0, 1, false⟩, ⟨0, 2, false⟩, ⟨0, 3, false⟩,
      ⟨0, 4, false⟩, ⟨0, 5, false⟩, ⟨0, 6, false⟩, ⟨0, 7, false⟩, ⟨0, 8, false⟩, ⟨0, 9, true⟩],
    direction := Direction.RIGHT,
    snakeCoordinatesMap := syncSnakeCoordinatesMap [⟨0, 0, false⟩, ⟨0, 1, false⟩,
      ⟨0, 2, false⟩, ⟨0, 3, false⟩, ⟨0, 4, false⟩, ⟨0, 5, false⟩, ⟨0, 6, false⟩,
      ⟨0, 7, false⟩, ⟨0, 8, false⟩, ⟨0, 9, true⟩],
    foodCoords := (5, 5), points := 0, gameOver := false, isPlaying := 0 }

/-- A small Running state: two cells heading RIGHT on row 0, food far away. -/
def twoCellPre : GameState :=
  { snakeCoordinates := [⟨0, 0, false⟩, ⟨0, 1, true⟩],
    direction := Direction.RIGHT,
    snakeCoordinatesMap := syncSnakeCoordinatesMap [⟨0, 0, false⟩, ⟨0, 1, true⟩],
    foodCoords := (5, 5), points := 0, gameOver := false, isPlaying := 0 }

/-- The state one tick after `twoCellPre`. -/
def twoCellPost : GameState :=
  { snakeCoordinates := [⟨0, 1, false⟩, ⟨0, 2, true⟩],
    direction := Direction.RIGHT,
    snakeCoordinatesMap := syncSnakeCoordinatesMap [⟨0, 1, false⟩, ⟨0, 2, true⟩],
    foodCoords := (5, 5), points := 0, gameOver := false, isPlaying := 1 }

/-- A small Running state sitting on its food: two cells heading RIGHT with
the head cell `(0, 1)` equal to the food cell. -/
def eatPre : GameState :=
  { snakeCoordinates := [⟨0, 0, false⟩, ⟨0, 1, true⟩],
    direction := Direction.RIGHT,
    snakeCoordinatesMap := syncSnakeCoordinatesMap [⟨0, 0, false⟩, ⟨0, 1, true⟩],
    foodCoords := (0, 1), points := 0, gameOver := false, isPlaying := 0 }

/-- The state one tick after `eatPre` with replacement food draw `(7, 7)`. -/
def eatPost : GameState :=
  { snakeCoordinates := [⟨0, 0, false⟩, ⟨0, 1, false⟩, ⟨0, 2, true⟩],
    direction := Direction.RIGHT,
    snakeCoordinatesMap := syncSnakeCoordinatesMap [⟨0, 0, false⟩, ⟨0, 1, false⟩, ⟨0, 2, true⟩],
    foodCoords := (7, 7), points := 10, gameOver := false, isPlaying := 1 }

/-- A small Running state about to hit the right wall: two cells heading
RIGHT with the head at column 47. -/
def wallPre : GameState :=
  { snakeCoordinates := [⟨0, 46, false⟩, ⟨0, 47, true⟩],
    direction := Direction.RIGHT,
    snakeCoordinatesMap := syncSnakeCoordinatesMap [⟨0, 46, false⟩, ⟨0, 47, true⟩],
    foodCoords := (5, 5), points := 0, gameOver := false, isPlaying := 0 }

/-- The aftermath of the wall crash from `wallPre`: shifted body, stale
occupied set, GameOver. -/
def wallPost : GameState :=
  { snakeCoordinates := [⟨0, 47, false⟩],
    direction := Direction.RIGHT,
    snakeCoordinatesMap := syncSnakeCoordinatesMap [⟨0, 46, false⟩, ⟨0, 47, true⟩],
    foodCoords := (5, 5), points := 0, gameOver := true, isPlaying := 0 }

/-- Like `wallPre` but sitting on its food cell `(0, 47)`: the tick both
consumes and crashes. -/
def wallFoodPre : GameState :=
  { snakeCoordinates := [⟨0, 46, false⟩, ⟨0, 47, true⟩],
    direction := Direction.RIGHT,
    snakeCoordinatesMap := syncSnakeCoordinatesMap [⟨0, 46, false⟩, ⟨0, 47, true⟩],
    foodCoords := (0, 47), points := 0, gameOver := false, isPlaying := 0 }

/-- The aftermath of the consuming wall crash from `wallFoodPre` with
replacement food draw `(3, 3)`. -/
def wallFoodPost : GameState :=
  { snakeCoordinates := [⟨0, 47, false⟩],
    direction := Direction.RIGHT,
    snakeCoordinatesMap := syncSnakeCoordinatesMap [⟨0, 46, false⟩, ⟨0, 47, true⟩],
    foodCoords := (3, 3), points := 10, gameOver := true, isPlaying := 0 }

/-- A session already in GameOver. -/
def overState : GameState :=
  { snakeCoordinates := [⟨0, 0, true⟩],
    direction := Direction.RIGHT,
    snakeCoordinatesMap := syncSnakeCoordinatesMap [⟨0, 0, true⟩],
    foodCoords := (5, 5), points := 0, gameOver := true, isPlaying := 0 }

/-- The inductive invariant carried through every public operation: the body
cells are pairwise distinct and in-bounds, and while the game is not over
the occupied set is the freshly synced body set and the body holds at
least two cells. -/
def SessionInv (s : GameState) : Prop :=
  (cells s.snakeCoordinates).Nodup ∧
  (∀ p ∈ cells s.snakeCoordinates, inBounds p) ∧
  (s.gameOver = true ∨
    (s.snakeCoordinatesMap = syncSnakeCoordinatesMap s.snakeCoordinates ∧
     2 ≤ s.snakeCoordinates.length))

/-- The arrow-key string delivered for a requested direction (the keyboard
listener and the on-screen buttons both feed these strings, App.tsx lines
44 and 314-327). -/
def dirKey : Direction → String
  | Direction.UP => "ArrowUp"
  | Direction.DOWN => "ArrowDown"
  | Direction.RIGHT => "ArrowRight"
  | Direction.LEFT => "ArrowLeft"

/-! ### Basic lemmas about the embedded operations -/

theorem collisionCheck_false_iff (ch : Coordinate) (map : Finset (Int × Int)) :
    collisionCheck ch map = false ↔
      inBounds (ch.row, ch.col) ∧ (ch.row, ch.col) ∉ map := by
  unfold collisionCheck
  split_ifs with hwall hmem
  · constructor
    · intro hh; cases hh
    · rintro ⟨⟨h1, h2, h3, h4⟩, -⟩
      simp only [ROWS, COLS] at hwall h1 h2 h3 h4
      rcases hwall with hw | hw | hw | hw <;> omega
  · simp [hmem]
  · simp only [eq_self_iff_true, true_iff]
    refine ⟨?_, hmem⟩
    push_neg at hwall
    obtain ⟨w1, w2, w3, w4⟩ := hwall
    simp only [inBounds, ROWS, COLS] at *
    omega

theorem collisionCheck_true_iff (ch : Coordinate) (map : Finset (Int × Int)) :
    collisionCheck ch map = true ↔
      ¬ inBounds (ch.row, ch.col) ∨ (ch.row, ch.col) ∈ map := by
  cases hb : collisionCheck ch map
  · have hf := (collisionCheck_false_iff ch map).mp hb
    simp only [Bool.false_eq_true, false_iff]
    tauto
  · have hf := collisionCheck_false_iff ch map
    rw [hb] at hf
    simp only [Bool.true_eq_false, false_iff] at hf
    simp only [eq_self_iff_true, true_iff]
    tauto

theorem populateFoodBall_not_mem (map : Finset (Int × Int)) :
    ∀ (draws : List (Int × Int)) (c : Int × Int),
      populateFoodBall map draws = some c → c ∉ map := by
  intro draws
  induction draws with
  | nil => intro c h; cases h
  | cons d rest ih =>
    obtain ⟨r, q⟩ := d
    intro c h
    simp only [populateFoodBall] at h
    split_ifs at h with hmem
    · exact ih c h
    · injection h with h; subst h; exact hmem

theorem populateFoodBall_mem_draws (map : Finset (Int × Int)) :
    ∀ (draws : List (Int × Int)) (c : Int × Int),
      populateFoodBall map draws = some c → c ∈ draws := by
  intro draws
  induction draws with
  | nil => intro c h; cases h
  | cons d rest ih =>
    obtain ⟨r, q⟩ := d
    intro c h
    simp only [populateFoodBall] at h
    split_ifs at h with hmem
    · exact List.mem_cons_of_mem _ (ih c h)
    · injection h with h; subst h; exact List.mem_cons_self _ _

theorem populateFoodBall_isSome (map : Finset (Int × Int)) :
    ∀ (draws : List (Int × Int)), (∃ p ∈ draws, p ∉ map) →
      ∃ c, populateFoodBall map draws = some c := by
  intro draws
  induction draws with
  | nil => rintro ⟨p, hp, -⟩; cases hp
  | cons d rest ih =>
    obtain ⟨r, q⟩ := d
    rintro ⟨p, hp, hpfree⟩
    simp only [populateFoodBall]
    split_ifs with hmem
    · refine ih ⟨p, ?_, hpfree⟩
      rcases List.mem_cons.mp hp with hpe | hpr
      · exact absurd (hpe ▸ hmem) hpfree
      · exact hpr
    · exact ⟨(r, q), rfl⟩

theorem cells_append (l m : List Coordinate) : cells (l ++ m) = cells l ++ cells m :=
  List.map_append _ l m

theorem cells_drop (l : List Coordinate) (n : Nat) : cells (l.drop n) = (cells l).drop n :=
  List.map_drop _ l n

/-- The cells of the shifted body are exactly the cells of the body with the
old tail dropped: the head snapshot appended at the end carries the same
cell as the head that was popped. -/
theorem cells_shiftBody (c : List Coordinate) (h : Coordinate) :
    cells (shiftBody c h) = cells ((c ++ [h]).drop 1) := by
  cases c with
  | nil => simp [shiftBody, cells]
  | cons a t => simp [shiftBody, cells]

/-! ### Unfolding lemmas: the four paths through a Running tick -/

theorem moveSnake_gameOver (s : GameState) (draws : List (Int × Int))
    (hgo : s.gameOver = true) : moveSnake s draws = some s := by
  rw [moveSnake, if_pos hgo]

theorem moveSnake_noFood_noCol (c : List Coordinate) (h : Coordinate)
    (dir : Direction) (map : Finset (Int × Int)) (food : Int × Int)
    (pts ip : Nat) (draws : List (Int × Int))
    (hfood : (h.row, h.col) ≠ food)
    (hcol : collisionCheck (applyDirection h dir) map = false) :
    moveSnake ⟨c ++ [h], dir, map, food, pts, false, ip⟩ draws =
      some ⟨shiftBody c h ++ [applyDirection h dir], dir,
            syncSnakeCoordinatesMap (shiftBody c h ++ [applyDirection h dir]),
            food, pts, false, ip + 1⟩ := by
  simp [moveSnake, List.getLast?_concat, List.dropLast_concat, hfood, hcol]

theorem moveSnake_noFood_col (c : List Coordinate) (h : Coordinate)
    (dir : Direction) (map : Finset (Int × Int)) (food : Int × Int)
    (pts ip : Nat) (draws : List (Int × Int))
    (hfood : (h.row, h.col) ≠ food)
    (hcol : collisionCheck (applyDirection h dir) map = true) :
    moveSnake ⟨c ++ [h], dir, map, food, pts, false, ip⟩ draws =
      some ⟨shiftBody c h, dir, map, food, pts, true, 0⟩ := by
  simp [moveSnake, List.getLast?_concat, List.dropLast_concat, hfood, hcol, stopGame]

theorem moveSnake_food_col (c : List Coordinate) (h : Coordinate)
    (dir : Direction) (map : Finset (Int × Int)) (food f : Int × Int)
    (pts ip : Nat) (draws : List (Int × Int))
    (hfood : (h.row, h.col) = food)
    (hpf : populateFoodBall map draws = some f)
    (hcol : collisionCheck (applyDirection h dir) map = true) :
    moveSnake ⟨c ++ [h], dir, map, food, pts, false, ip⟩ draws =
      some ⟨shiftBody c h, dir, map, f, pts + 10, true, 0⟩ := by
  simp [moveSnake, List.getLast?_concat, List.dropLast_concat, hfood, hpf, hcol, stopGame]

theorem moveSnake_food_noCol (c : List Coordinate) (h : Coordinate)
    (dir : Direction) (map : Finset (Int × Int)) (food f : Int × Int)
    (pts ip : Nat) (draws : List (Int × Int))
    (hfood : (h.row, h.col) = food)
    (hpf : populateFoodBall map draws = some f)
    (hcol : collisionCheck (applyDirection h dir) map = false) :
    moveSnake ⟨c ++ [h], dir, map, food, pts, false, ip⟩ draws =
      some ⟨(if c.isEmpty then applyDirection h dir else c.headD h)
              :: (shiftBody c h ++ [applyDirection h dir]), dir,
            syncSnakeCoordinatesMap
              ((if c.isEmpty then applyDirection h dir else c.headD h)
                :: (shiftBody c h ++ [applyDirection h dir])),
            f, pts + 10, false, ip + 1⟩ := by
  simp [moveSnake, List.getLast?_concat, List.dropLast_concat, hfood, hpf, hcol]

/-- A tick on the empty body only bumps the tick counter (the
`if (!snakeHead) return` path, App.tsx line 116). -/
theorem moveSnake_nil (dir : Direction) (map : Finset (Int × Int))
    (food : Int × Int) (pts ip : Nat) (draws : List (Int × Int)) :
    moveSnake ⟨[], dir, map, food, pts, false, ip⟩ draws =
      some ⟨[], dir, map, food, pts, false, ip + 1⟩ := by
  simp [moveSnake]

theorem moveSnake_food_none (c : List Coordinate) (h : Coordinate)
    (dir : Direction) (map : Finset (Int × Int)) (food : Int × Int)
    (pts ip : Nat) (draws : List (Int × Int))
    (hfood : (h.row, h.col) = food)
    (hpf : populateFoodBall map draws = none) :
    moveSnake ⟨c ++ [h], dir, map, food, pts, false, ip⟩ draws = none := by
  simp [moveSnake, List.getLast?_concat, hfood, hpf]

theorem moveSnake_food_noCol_cons (a : Coordinate) (t : List Coordinate) (h : Coordinate)
    (dir : Direction) (map : Finset (Int × Int)) (food f : Int × Int)
    (pts ip : Nat) (draws : List (Int × Int))
    (hfood : (h.row, h.col) = food)
    (hpf : populateFoodBall map draws = some f)
    (hcol : collisionCheck (applyDirection h dir) map = false) :
    moveSnake ⟨(a :: t) ++ [h], dir, map, food, pts, false, ip⟩ draws =
      some ⟨a :: (shiftBody (a :: t) h ++ [applyDirection h dir]), dir,
            syncSnakeCoordinatesMap (a :: (shiftBody (a :: t) h ++ [applyDirection h dir])),
            f, pts + 10, false, ip + 1⟩ := by
  rw [moveSnake_food_noCol (a :: t) h dir map food f pts ip draws hfood hpf hcol]
  simp

theorem moveSnake_food_noCol_one (h : Coordinate)
    (dir : Direction) (map : Finset (Int × Int)) (food f : Int × Int)
    (pts ip : Nat) (draws : List (Int × Int))
    (hfood : (h.row, h.col) = food)
    (hpf : populateFoodBall map draws = some f)
    (hcol : collisionCheck (applyDirection h dir) map = false) :
    moveSnake ⟨[h], dir, map, food, pts, false, ip⟩ draws =
      some ⟨[applyDirection h dir, applyDirection h dir], dir,
            syncSnakeCoordinatesMap [applyDirection h dir, applyDirection h dir],
            f, pts + 10, false, ip + 1⟩ := by
  have hh : ([h] : List Coordinate) = [] ++ [h] := rfl
  rw [hh, moveSnake_food_noCol [] h dir map food f pts ip draws hfood hpf hcol]
  simp [shiftBody]

/-! ### The reachability invariant -/

theorem inv_handleDirectionChange (s : GameState) (key : String)
    (hInv : SessionInv s) : SessionInv (handleDirectionChange key s) := by
  unfold handleDirectionChange
  dsimp only
  split
  · exact hInv
  · exact hInv

theorem inv_stopGame (s : GameState) (hInv : SessionInv s) : SessionInv (stopGame s) :=
  ⟨hInv.1, hInv.2.1, Or.inl rfl⟩

theorem inv_resetGame (s : GameState) (draws : List (Int × Int)) (s' : GameState)
    (hm : resetGame s draws = some s') : SessionInv s' := by
  simp only [resetGame] at hm
  cases hpf : populateFoodBall (syncSnakeCoordinatesMap (withHeadMarked snakePositionsInit)) draws with
  | none => rw [hpf] at hm; cases hm
  | some food =>
    rw [hpf] at hm
    simp only [Option.map_some'] at hm
    injection hm with hm
    subst hm
    refine ⟨?_, ?_, Or.inr ⟨rfl, ?_⟩⟩
    · show (cells (withHeadMarked snakePositionsInit)).Nodup
      decide
    · show ∀ p ∈ cells (withHeadMarked snakePositionsInit), inBounds p
      decide
    · show 2 ≤ (withHeadMarked snakePositionsInit).length
      decide

theorem cells_cons (x : Coordinate) (l : List Coordinate) :
    cells (x :: l) = (x.row, x.col) :: cells l := rfl

theorem cells_singleton (x : Coordinate) : cells [x] = [(x.row, x.col)] := rfl

theorem inv_moveSnake (s : GameState) (draws : List (Int × Int)) (s' : GameState)
    (hInv : SessionInv s) (hm : moveSnake s draws = some s') : SessionInv s' := by
  obtain ⟨sc, dir, map, food, pts, go, ip⟩ := s
  obtain ⟨hnd, hbd, hsync⟩ := hInv
  cases go with
  | true =>
    rw [moveSnake_gameOver _ _ rfl] at hm
    injection hm with hm
    subst hm
    exact ⟨hnd, hbd, Or.inl rfl⟩
  | false =>
    rcases hsync with hgo2 | ⟨hmap, hlen⟩
    · simp at hgo2
    · dsimp only at hnd hbd hmap hlen hm
      subst hmap
      obtain ⟨h, c, rfl⟩ : ∃ h c, sc = c ++ [h] := by
        cases hsc : sc.getLast? with
        | none =>
          rw [List.getLast?_eq_none_iff] at hsc
          subst hsc; simp at hlen
        | some x =>
          obtain ⟨c, rfl⟩ := List.getLast?_eq_some_iff.mp hsc
          exact ⟨x, c, rfl⟩
      obtain ⟨a, t, rfl⟩ : ∃ a t, c = a :: t := by
        cases c with
        | nil => simp at hlen
        | cons a t => exact ⟨a, t, rfl⟩
      have hcellsL : cells ((a :: t) ++ [h]) = (a.row, a.col) :: cells (t ++ [h]) := by
        simp [cells]
      have hshift : cells (shiftBody (a :: t) h) = cells (t ++ [h]) := by
        rw [cells_shiftBody]
        simp
      rw [hcellsL] at hnd hbd
      have hpair := List.nodup_cons.mp hnd
      have hanot : (a.row, a.col) ∉ cells (t ++ [h]) := hpair.1
      have hndt : (cells (t ++ [h])).Nodup := hpair.2
      have hbdt : ∀ p ∈ cells (t ++ [h]), inBounds p :=
        fun p hp => hbd p (List.mem_cons_of_mem _ hp)
      have hbda : inBounds (a.row, a.col) := hbd _ (List.mem_cons_self _ _)
      by_cases hfood : (h.row, h.col) = food
      · cases hpf : populateFoodBall (syncSnakeCoordinatesMap ((a :: t) ++ [h])) draws with
        | none =>
          rw [moveSnake_food_none (a :: t) h dir _ food pts ip draws hfood hpf] at hm
          cases hm
        | some f =>
          cases hcolb : collisionCheck (applyDirection h dir) (syncSnakeCoordinatesMap ((a :: t) ++ [h])) with
          | true =>
            rw [moveSnake_food_col (a :: t) h dir _ food f pts ip draws hfood hpf hcolb] at hm
            injection hm with hm
            subst hm
            refine ⟨?_, ?_, Or.inl rfl⟩
            · show (cells (shiftBody (a :: t) h)).Nodup
              rw [hshift]; exact hndt
            · show ∀ p ∈ cells (shiftBody (a :: t) h), inBounds p
              intro p hp
              rw [hshift] at hp
              exact hbdt p hp
          | false =>
            have hfree := (collisionCheck_false_iff _ _).mp hcolb
            have hnhin : inBounds ((applyDirection h dir).row, (applyDirection h dir).col) :=
              hfree.1
            have hnhnot :
                ((applyDirection h dir).row, (applyDirection h dir).col) ∉
                  cells ((a :: t) ++ [h]) := by
              have h2 := hfree.2
              simpa [syncSnakeCoordinatesMap, List.mem_toFinset] using h2
            have hnhnott :
                ((applyDirection h dir).row, (applyDirection h dir).col) ∉ cells (t ++ [h]) :=
              fun hx => hnhnot (by rw [hcellsL]; exact List.mem_cons_of_mem _ hx)
            have hndbody :
                (cells (t ++ [h]) ++
                  [((applyDirection h dir).row, (applyDirection h dir).col)]).Nodup := by
              refine List.Nodup.append hndt (by simp) ?_
              intro x hx hx2
              rw [List.mem_singleton] at hx2
              subst hx2
              exact hnhnott hx
            rw [moveSnake_food_noCol_cons a t h dir _ food f pts ip draws hfood hpf hcolb] at hm
            injection hm with hm
            subst hm
            refine ⟨?_, ?_, Or.inr ⟨rfl, ?_⟩⟩
            · show (cells (a :: (shiftBody (a :: t) h ++ [applyDirection h dir]))).Nodup
              rw [cells_cons, cells_append, hshift, cells_singleton, List.nodup_cons]
              constructor
              · intro hmem
                rcases List.mem_append.mp hmem with h1 | h1
                · exact hanot h1
                · have he := List.mem_singleton.mp h1
                  exact hnhnot (by rw [hcellsL, ← he]; exact List.mem_cons_self _ _)
              · exact hndbody
            · show ∀ p ∈ cells (a :: (shiftBody (a :: t) h ++ [applyDirection h dir])), inBounds p
              intro p hp
              rw [cells_cons, cells_append, hshift, cells_singleton] at hp
              rcases List.mem_cons.mp hp with h1 | h1
              · subst h1; exact hbda
              · rcases List.mem_append.mp h1 with h2 | h2
                · exact hbdt p h2
                · rw [List.mem_singleton] at h2; subst h2; exact hnhin
            · show 2 ≤ (a :: (shiftBody (a :: t) h ++ [applyDirection h dir])).length
              simp
      · cases hcolb : collisionCheck (applyDirection h dir) (syncSnakeCoordinatesMap ((a :: t) ++ [h])) with
        | true =>
          rw [moveSnake_noFood_col (a :: t) h dir _ food pts ip draws hfood hcolb] at hm
          injection hm with hm
          subst hm
          refine ⟨?_, ?_, Or.inl rfl⟩
          · show (cells (shiftBody (a :: t) h)).Nodup
            rw [hshift]; exact hndt
          · show ∀ p ∈ cells (shiftBody (a :: t) h), inBounds p
            intro p hp
            rw [hshift] at hp
            exact hbdt p hp
        | false =>
          have hfree := (collisionCheck_false_iff _ _).mp hcolb
          have hnhin : inBounds ((applyDirection h dir).row, (applyDirection h dir).col) :=
            hfree.1
          have hnhnot :
              ((applyDirection h dir).row, (applyDirection h dir).col) ∉
                cells ((a :: t) ++ [h]) := by
            have h2 := hfree.2
            simpa [syncSnakeCoordinatesMap, List.mem_toFinset] using h2
          have hnhnott :
              ((applyDirection h dir).row, (applyDirection h dir).col) ∉ cells (t ++ [h]) :=
            fun hx => hnhnot (by rw [hcellsL]; exact List.mem_cons_of_mem _ hx)
          rw [moveSnake_noFood_noCol (a :: t) h dir _ food pts ip draws hfood hcolb] at hm
          injection hm with hm
          subst hm
          refine ⟨?_, ?_, Or.inr ⟨rfl, ?_⟩⟩
          · show (cells (shiftBody (a :: t) h ++ [applyDirection h dir])).Nodup
            rw [cells_append, hshift, cells_singleton]
            refine List.Nodup.append hndt (by simp) ?_
            intro x hx hx2
            rw [List.mem_singleton] at hx2
            subst hx2
            exact hnhnott hx
          · show ∀ p ∈ cells (shiftBody (a :: t) h ++ [applyDirection h dir]), inBounds p
            intro p hp
            rw [cells_append, hshift, cells_singleton] at hp
            rcases List.mem_append.mp hp with h2 | h2
            · exact hbdt p h2
            · rw [List.mem_singleton] at h2; subst h2; exact hnhin
          · show 2 ≤ (shiftBody (a :: t) h ++ [applyDirection h dir]).length
            simp [shiftBody]

theorem inv_startGame (s : GameState) (draws : List (Int × Int)) (s' : GameState)
    (hInv : SessionInv s) (hm : startGame s draws = some s') : SessionInv s' := by
  by_cases hgo : s.gameOver = true
  · rw [startGame, if_pos hgo] at hm
    exact inv_resetGame s draws s' hm
  · rw [startGame, if_neg hgo] at hm
    injection hm with hm
    subst hm
    exact hInv

theorem inv_initState (draws : List (Int × Int)) (s : GameState)
    (hm : initState draws = some s) : SessionInv s := by
  rw [initState] at hm
  exact inv_resetGame _ draws s hm

/-- Every reachable session state satisfies the inductive invariant. -/
theorem reachable_inv (s : GameState) (hs : Reachable s) : SessionInv s := by
  induction hs with
  | init draws s hm => exact inv_initState draws s hm
  | dirChange s key _ ih => exact inv_handleDirectionChange s key ih
  | tick s draws s' _ hm ih => exact inv_moveSnake s draws s' ih hm
  | start s draws s' _ hm ih => exact inv_startGame s draws s' ih hm
  | stop s _ ih => exact inv_stopGame s ih
  | reset s draws s' _ hm ih => exact inv_resetGame s draws s' hm

/-! ### Claim C1 -/

/-- Claim C1 (amended): on every Running tick the self-collision membership
test applied to the candidate head uses the occupied set synced at the end
of the previous tick, i.e. the full pre-tick body membership including the
cell the old tail is about to vacate — not the post-shift, pre-append
membership.  The tick ends in GameOver exactly when the candidate head is
out of bounds or its cell lies in the pre-tick body. -/
theorem collision_uses_pretick_occupied_set (s : GameState) (draws : List (Int × Int))
    (h : Coordinate) (s' : GameState)
    (hgo : s.gameOver = false)
    (hlast : s.snakeCoordinates.getLast? = some h)
    (hmap : s.snakeCoordinatesMap = syncSnakeCoordinatesMap s.snakeCoordinates)
    (hm : moveSnake s draws = some s') :
    s'.gameOver = collisionCheck (applyDirection h s.direction) s.snakeCoordinatesMap ∧
    (collisionCheck (applyDirection h s.direction) s.snakeCoordinatesMap = true ↔
      ¬ inBounds ((applyDirection h s.direction).row, (applyDirection h s.direction).col) ∨
        ((applyDirection h s.direction).row, (applyDirection h s.direction).col) ∈
          cells s.snakeCoordinates) := by
  obtain ⟨sc, dir, map, food, pts, go, ip⟩ := s
  dsimp only at hgo hlast hmap hm ⊢
  subst hgo
  subst hmap
  obtain ⟨c, rfl⟩ := List.getLast?_eq_some_iff.mp hlast
  have hiff : collisionCheck (applyDirection h dir) (syncSnakeCoordinatesMap (c ++ [h])) = true ↔
      ¬ inBounds ((applyDirection h dir).row, (applyDirection h dir).col) ∨
        ((applyDirection h dir).row, (applyDirection h dir).col) ∈ cells (c ++ [h]) := by
    rw [collisionCheck_true_iff]
    simp [syncSnakeCoordinatesMap]
  refine ⟨?_, hiff⟩
  by_cases hfood : (h.row, h.col) = food
  · cases hpf : populateFoodBall (syncSnakeCoordinatesMap (c ++ [h])) draws with
    | none =>
      rw [moveSnake_food_none c h dir _ food pts ip draws hfood hpf] at hm
      cases hm
    | some f =>
      cases hcolb : collisionCheck (applyDirection h dir) (syncSnakeCoordinatesMap (c ++ [h])) with
      | true =>
        rw [moveSnake_food_col c h dir _ food f pts ip draws hfood hpf hcolb] at hm
        injection hm with hm
        subst hm
        rfl
      | false =>
        rw [moveSnake_food_noCol c h dir _ food f pts ip draws hfood hpf hcolb] at hm
        injection hm with hm
        subst hm
        rfl
  · cases hcolb : collisionCheck (applyDirection h dir) (syncSnakeCoordinatesMap (c ++ [h])) with
    | true =>
      rw [moveSnake_noFood_col c h dir _ food pts ip draws hfood hcolb] at hm
      injection hm with hm
      subst hm
      rfl
    | false =>
      rw [moveSnake_noFood_noCol c h dir _ food pts ip draws hfood hcolb] at hm
      injection hm with hm
      subst hm
      rfl

/-- Witness for C1 (amended) at the concrete two-cell state `twoCellPre`. -/
theorem collision_uses_pretick_occupied_set_witness :
    twoCellPost.gameOver =
      collisionCheck (applyDirection ⟨0, 1, true⟩ twoCellPre.direction)
        twoCellPre.snakeCoordinatesMap ∧
    (collisionCheck (applyDirection ⟨0, 1, true⟩ twoCellPre.direction)
        twoCellPre.snakeCoordinatesMap = true ↔
      ¬ inBounds ((applyDirection ⟨0, 1, true⟩ twoCellPre.direction).row,
          (applyDirection ⟨0, 1, true⟩ twoCellPre.direction).col) ∨
        ((applyDirection ⟨0, 1, true⟩ twoCellPre.direction).row,
          (applyDirection ⟨0, 1, true⟩ twoCellPre.direction).col) ∈
          cells twoCellPre.snakeCoordinates) :=
  collision_uses_pretick_occupied_set twoCellPre [] ⟨0, 1, true⟩ twoCellPost
    rfl (by decide) rfl (by decide)

/-- Counterexample to claim C1 as stated: in the reachable loop scenario,
the Running state `loopRun5` has its ten body cells in a closed ring, the
head is `⟨1, 5⟩`, and turning UP makes the candidate head `(0, 5)` — the
cell being vacated by the old tail.  That cell is *not* a member of the
post-shift, pre-append body (`shiftBody` of the popped body), yet the tick
`loopRun6` ends in GameOver, i.e. the code *does* report a collision. -/
theorem tail_cell_collision_counterexample :
    (loopRun5.map fun s => s.gameOver) = some false ∧
    (loopRun5.map fun s => cells s.snakeCoordinates) =
      some [(0, 5), (0, 6), (0, 7), (0, 8), (0, 9), (1, 9), (1, 8), (1, 7), (1, 6), (1, 5)] ∧
    (loopRun5.map fun s => s.snakeCoordinates.getLast?) = some (some ⟨1, 5, true⟩) ∧
    (loopRun5.map fun s => (handleDirectionChange "ArrowUp" s).direction) =
      some Direction.UP ∧
    applyDirection ⟨1, 5, true⟩ Direction.UP = ⟨0, 5, true⟩ ∧
    inBounds ((0 : Int), (5 : Int)) ∧
    (loopRun5.map fun s =>
      decide (((0 : Int), (5 : Int)) ∈ cells (shiftBody s.snakeCoordinates.dropLast ⟨1, 5, true⟩))) =
      some false ∧
    (loopRun6.map fun s => s.gameOver) = some true := by
  decide

theorem shiftBody_length (c : List Coordinate) (h : Coordinate) :
    (shiftBody c h).length = c.length := by
  cases c <;> simp [shiftBody]

/-! ### Claim C2 -/

/-- Claim C2 (amended): on a consuming tick (pre-step head on the food
cell) that does not collide, the body grows by exactly one cell and the
score by exactly 10, and the replacement food cell is fresh: it differs
from the old food cell and is not a member of the *pre-tick* body (the
set `populateFoodBall` is called against).  It may however coincide with
the cell the new head steps onto, because the occupied set is only synced
after the food was placed. -/
theorem growth_law_consumption (s : GameState) (draws : List (Int × Int))
    (h : Coordinate) (s' : GameState)
    (hgo : s.gameOver = false)
    (hlast : s.snakeCoordinates.getLast? = some h)
    (hmap : s.snakeCoordinatesMap = syncSnakeCoordinatesMap s.snakeCoordinates)
    (hfood : (h.row, h.col) = s.foodCoords)
    (hm : moveSnake s draws = some s')
    (hnc : s'.gameOver = false) :
    s'.snakeCoordinates.length = s.snakeCoordinates.length + 1 ∧
    s'.points = s.points + 10 ∧
    s'.foodCoords ∉ cells s.snakeCoordinates ∧
    s'.foodCoords ≠ s.foodCoords := by
  obtain ⟨sc, dir, map, food, pts, go, ip⟩ := s
  dsimp only at hgo hlast hmap hfood hm hnc ⊢
  subst hgo
  subst hmap
  obtain ⟨c, rfl⟩ := List.getLast?_eq_some_iff.mp hlast
  cases hpf : populateFoodBall (syncSnakeCoordinatesMap (c ++ [h])) draws with
  | none =>
    rw [moveSnake_food_none c h dir _ food pts ip draws hfood hpf] at hm
    cases hm
  | some f =>
    cases hcolb : collisionCheck (applyDirection h dir) (syncSnakeCoordinatesMap (c ++ [h])) with
    | true =>
      rw [moveSnake_food_col c h dir _ food f pts ip draws hfood hpf hcolb] at hm
      injection hm with hm
      subst hm
      exact Bool.noConfusion hnc
    | false =>
      have hnot : f ∉ cells (c ++ [h]) := by
        have h2 := populateFoodBall_not_mem _ draws f hpf
        simpa [syncSnakeCoordinatesMap] using h2
      have hfc : (h.row, h.col) ∈ cells (c ++ [h]) := by
        rw [cells_append, cells_singleton]
        exact List.mem_append_right _ (by simp)
      rw [moveSnake_food_noCol c h dir _ food f pts ip draws hfood hpf hcolb] at hm
      injection hm with hm
      subst hm
      refine ⟨?_, rfl, hnot, ?_⟩
      · show ((if c.isEmpty then applyDirection h dir else c.headD h) ::
            (shiftBody c h ++ [applyDirection h dir])).length = (c ++ [h]).length + 1
        simp [shiftBody_length]
      · intro he
        dsimp only at he
        exact hnot (by rw [he, ← hfood]; exact hfc)

/-- Witness for C2 (amended) at the concrete consuming state `eatPre`. -/
theorem growth_law_consumption_witness :
    eatPost.snakeCoordinates.length = eatPre.snakeCoordinates.length + 1 ∧
    eatPost.points = eatPre.points + 10 ∧
    eatPost.foodCoords ∉ cells eatPre.snakeCoordinates ∧
    eatPost.foodCoords ≠ eatPre.foodCoords :=
  growth_law_consumption eatPre [((7 : Int), (7 : Int))] ⟨0, 1, true⟩ eatPost
    rfl (by decide) rfl rfl (by decide) rfl

/-- Counterexample to claim C2 as stated: in the reachable growth scenario
the tick `growRun1 → growRun2` consumes (the pre-step head `(0, 10)` equals
the food) and does not collide; length and score grow as claimed, but the
replacement food `(0, 11)` IS a member of the post-tick body — it landed on
the cell the new head moved onto, because `populateFoodBall` tested the
stale pre-tick occupied set. -/
theorem food_on_new_head_counterexample :
    (growRun1.map fun s => s.gameOver) = some false ∧
    (growRun1.map fun s => s.snakeCoordinates.getLast?) = some (some ⟨0, 10, true⟩) ∧
    (growRun1.map fun s => s.foodCoords) = some (0, 10) ∧
    (growRun1.map fun s => s.points) = some 0 ∧
    (growRun1.map fun s => s.snakeCoordinates.length) = some 10 ∧
    (growRun2.map fun s => s.gameOver) = some false ∧
    (growRun2.map fun s => s.snakeCoordinates.length) = some 11 ∧
    (growRun2.map fun s => s.points) = some 10 ∧
    (growRun2.map fun s => s.foodCoords) = some (0, 11) ∧
    (growRun2.map fun s => decide (s.foodCoords ∈ cells s.snakeCoordinates)) = some true := by
  decide

/-! ### Claim C4 -/

/-- Claim C4 (amended): a Running tick that ends in a collision transitions
to GameOver and never appends the new head, but it is not free of partial
mutation: the body is left in the post-shift intermediate state (old tail
dropped, non-head snapshot of the old head at the end), the occupied set
keeps its stale pre-tick value, the tick counter resets to 0, and when the
same tick consumed food the score increment is also committed (the food
relocation is covered by C10); only without consumption do score and food
keep their pre-tick values. -/
theorem collided_tick_aftermath (s : GameState) (draws : List (Int × Int))
    (h : Coordinate) (s' : GameState)
    (hgo : s.gameOver = false)
    (hlast : s.snakeCoordinates.getLast? = some h)
    (hm : moveSnake s draws = some s')
    (hcol : s'.gameOver = true) :
    s'.snakeCoordinates = shiftBody s.snakeCoordinates.dropLast h ∧
    s'.snakeCoordinatesMap = s.snakeCoordinatesMap ∧
    s'.isPlaying = 0 ∧
    ((h.row, h.col) = s.foodCoords → s'.points = s.points + 10) ∧
    ((h.row, h.col) ≠ s.foodCoords → s'.points = s.points ∧ s'.foodCoords = s.foodCoords) := by
  obtain ⟨sc, dir, map, food, pts, go, ip⟩ := s
  dsimp only at hgo hlast hm hcol ⊢
  subst hgo
  obtain ⟨c, rfl⟩ := List.getLast?_eq_some_iff.mp hlast
  rw [List.dropLast_concat]
  by_cases hfood : (h.row, h.col) = food
  · cases hpf : populateFoodBall map draws with
    | none =>
      rw [moveSnake_food_none c h dir map food pts ip draws hfood hpf] at hm
      cases hm
    | some f =>
      cases hcolb : collisionCheck (applyDirection h dir) map with
      | true =>
        rw [moveSnake_food_col c h dir map food f pts ip draws hfood hpf hcolb] at hm
        injection hm with hm
        subst hm
        exact ⟨rfl, rfl, rfl, fun _ => rfl, fun hne => absurd hfood hne⟩
      | false =>
        rw [moveSnake_food_noCol c h dir map food f pts ip draws hfood hpf hcolb] at hm
        injection hm with hm
        subst hm
        exact Bool.noConfusion hcol
  · cases hcolb : collisionCheck (applyDirection h dir) map with
    | true =>
      rw [moveSnake_noFood_col c h dir map food pts ip draws hfood hcolb] at hm
      injection hm with hm
      subst hm
      exact ⟨rfl, rfl, rfl, fun hfd => absurd hfd hfood, fun _ => ⟨rfl, rfl⟩⟩
    | false =>
      rw [moveSnake_noFood_noCol c h dir map food pts ip draws hfood hcolb] at hm
      injection hm with hm
      subst hm
      exact Bool.noConfusion hcol

/-- Witness for C4 (amended) at the concrete wall-crash state `wallPre`. -/
theorem collided_tick_aftermath_witness :
    wallPost.snakeCoordinates = shiftBody wallPre.snakeCoordinates.dropLast ⟨0, 47, true⟩ ∧
    wallPost.snakeCoordinatesMap = wallPre.snakeCoordinatesMap ∧
    wallPost.isPlaying = 0 ∧
    (((⟨0, 47, true⟩ : Coordinate).row, (⟨0, 47, true⟩ : Coordinate).col) = wallPre.foodCoords →
      wallPost.points = wallPre.points + 10) ∧
    (((⟨0, 47, true⟩ : Coordinate).row, (⟨0, 47, true⟩ : Coordinate).col) ≠ wallPre.foodCoords →
      wallPost.points = wallPre.points ∧ wallPost.foodCoords = wallPre.foodCoords) :=
  collided_tick_aftermath wallPre [] ⟨0, 47, true⟩ wallPost rfl (by decide) (by decide) rfl

/-- Counterexample to claim C4 as stated: the reachable crash scenario
`crashRun0 → crashRun1` (turn UP into the top wall on the first tick) ends
in GameOver, yet the body observable afterwards is NOT the pre-tick body:
the old tail `(0, 0)` is gone and the head snapshot closes the list — the
tick aborted with partial mutation.  (The direction change itself leaves
the body untouched, as the third conjunct shows.) -/
theorem collided_tick_mutates_body :
    (crashRun0.map fun s => s.gameOver) = some false ∧
    (crashRun0.map fun s => cells s.snakeCoordinates) =
      some [(0, 0), (0, 1), (0, 2), (0, 3), (0, 4), (0, 5), (0, 6), (0, 7), (0, 8), (0, 9)] ∧
    (crashRun0.map fun s => cells (handleDirectionChange "ArrowUp" s).snakeCoordinates) =
      some [(0, 0), (0, 1), (0, 2), (0, 3), (0, 4), (0, 5), (0, 6), (0, 7), (0, 8), (0, 9)] ∧
    (crashRun1.map fun s => s.gameOver) = some true ∧
    (crashRun1.map fun s => cells s.snakeCoordinates) =
      some [(0, 1), (0, 2), (0, 3), (0, 4), (0, 5), (0, 6), (0, 7), (0, 8), (0, 9)] := by
  decide

/-! ### Claim C5 -/

/-- Claim C5: food consumption is detected by comparing the *pre-move* head
cell with the current food cell: the score is bumped by 10 exactly when the
head cell before the direction step equals the food, and without that
equality the food cell is untouched by the tick.  In particular a head that
steps onto the food this tick is only detected on the next tick. -/
theorem consumption_checks_premove_head (s : GameState) (draws : List (Int × Int))
    (h : Coordinate) (s' : GameState)
    (hgo : s.gameOver = false)
    (hlast : s.snakeCoordinates.getLast? = some h)
    (hm : moveSnake s draws = some s') :
    s'.points = (if (h.row, h.col) = s.foodCoords then s.points + 10 else s.points) ∧
    ((h.row, h.col) ≠ s.foodCoords → s'.foodCoords = s.foodCoords) := by
  obtain ⟨sc, dir, map, food, pts, go, ip⟩ := s
  dsimp only at hgo hlast hm ⊢
  subst hgo
  obtain ⟨c, rfl⟩ := List.getLast?_eq_some_iff.mp hlast
  by_cases hfood : (h.row, h.col) = food
  · rw [if_pos hfood]
    cases hpf : populateFoodBall map draws with
    | none =>
      rw [moveSnake_food_none c h dir map food pts ip draws hfood hpf] at hm
      cases hm
    | some f =>
      cases hcolb : collisionCheck (applyDirection h dir) map with
      | true =>
        rw [moveSnake_food_col c h dir map food f pts ip draws hfood hpf hcolb] at hm
        injection hm with hm
        subst hm
        exact ⟨rfl, fun hne => absurd hfood hne⟩
      | false =>
        rw [moveSnake_food_noCol c h dir map food f pts ip draws hfood hpf hcolb] at hm
        injection hm with hm
        subst hm
        exact ⟨rfl, fun hne => absurd hfood hne⟩
  · rw [if_neg hfood]
    cases hcolb : collisionCheck (applyDirection h dir) map with
    | true =>
      rw [moveSnake_noFood_col c h dir map food pts ip draws hfood hcolb] at hm
      injection hm with hm
      subst hm
      exact ⟨rfl, fun _ => rfl⟩
    | false =>
      rw [moveSnake_noFood_noCol c h dir map food pts ip draws hfood hcolb] at hm
      injection hm with hm
      subst hm
      exact ⟨rfl, fun _ => rfl⟩

/-- Witness for C5 at the concrete consuming state `eatPre`. -/
theorem consumption_checks_premove_head_witness :
    eatPost.points =
      (if ((⟨0, 1, true⟩ : Coordinate).row, (⟨0, 1, true⟩ : Coordinate).col) = eatPre.foodCoords
        then eatPre.points + 10 else eatPre.points) ∧
    (((⟨0, 1, true⟩ : Coordinate).row, (⟨0, 1, true⟩ : Coordinate).col) ≠ eatPre.foodCoords →
      eatPost.foodCoords = eatPre.foodCoords) :=
  consumption_checks_premove_head eatPre [((7 : Int), (7 : Int))] ⟨0, 1, true⟩ eatPost
    rfl (by decide) (by decide)

/-! ### Claim C10 -/

/-- Claim C10: on a tick that both consumes (pre-step head on the food
cell) and then collides, the consumption effects are committed anyway:
the score is bumped by 10 and the food is relocated — through
`populateFoodBall` against the pre-tick occupied set — to a fresh cell
distinct from the old food and outside the pre-tick body, before the
session transitions to GameOver. -/
theorem consumption_committed_on_collision (s : GameState) (draws : List (Int × Int))
    (h : Coordinate) (s' : GameState)
    (hgo : s.gameOver = false)
    (hlast : s.snakeCoordinates.getLast? = some h)
    (hmap : s.snakeCoordinatesMap = syncSnakeCoordinatesMap s.snakeCoordinates)
    (hfood : (h.row, h.col) = s.foodCoords)
    (hm : moveSnake s draws = some s')
    (hcol : s'.gameOver = true) :
    s'.points = s.points + 10 ∧
    populateFoodBall s.snakeCoordinatesMap draws = some s'.foodCoords ∧
    s'.foodCoords ∉ cells s.snakeCoordinates ∧
    s'.foodCoords ≠ s.foodCoords := by
  obtain ⟨sc, dir, map, food, pts, go, ip⟩ := s
  dsimp only at hgo hlast hmap hfood hm hcol ⊢
  subst hgo
  subst hmap
  obtain ⟨c, rfl⟩ := List.getLast?_eq_some_iff.mp hlast
  cases hpf : populateFoodBall (syncSnakeCoordinatesMap (c ++ [h])) draws with
  | none =>
    rw [moveSnake_food_none c h dir _ food pts ip draws hfood hpf] at hm
    cases hm
  | some f =>
    have hnot : f ∉ cells (c ++ [h]) := by
      have h2 := populateFoodBall_not_mem _ draws f hpf
      simpa [syncSnakeCoordinatesMap] using h2
    have hfc : (h.row, h.col) ∈ cells (c ++ [h]) := by
      rw [cells_append, cells_singleton]
      exact List.mem_append_right _ (by simp)
    cases hcolb : collisionCheck (applyDirection h dir) (syncSnakeCoordinatesMap (c ++ [h])) with
    | true =>
      rw [moveSnake_food_col c h dir _ food f pts ip draws hfood hpf hcolb] at hm
      injection hm with hm
      subst hm
      refine ⟨rfl, rfl, hnot, ?_⟩
      intro he
      dsimp only at he
      exact hnot (by rw [he, ← hfood]; exact hfc)
    | false =>
      rw [moveSnake_food_noCol c h dir _ food f pts ip draws hfood hpf hcolb] at hm
      injection hm with hm
      subst hm
      exact Bool.noConfusion hcol

/-- Witness for C10 at the concrete consuming wall-crash state `wallFoodPre`. -/
theorem consumption_committed_on_collision_witness :
    wallFoodPost.points = wallFoodPre.points + 10 ∧
    populateFoodBall wallFoodPre.snakeCoordinatesMap [((3 : Int), (3 : Int))] =
      some wallFoodPost.foodCoords ∧
    wallFoodPost.foodCoords ∉ cells wallFoodPre.snakeCoordinates ∧
    wallFoodPost.foodCoords ≠ wallFoodPre.foodCoords :=
  consumption_committed_on_collision wallFoodPre [((3 : Int), (3 : Int))] ⟨0, 47, true⟩
    wallFoodPost rfl (by decide) rfl rfl (by decide) rfl

/-! ### Claim C3 -/

/-- Claim C3 (amended): in every reachable state whose phase is not
GameOver, the occupied set equals the set of cells of the ordered body.
The equality does NOT survive a tick that transitions to GameOver: there
the early return skips the re-sync (see the counterexample). -/
theorem occupied_set_synced_when_running (s : GameState) (hs : Reachable s)
    (hgo : s.gameOver = false) :
    s.snakeCoordinatesMap = syncSnakeCoordinatesMap s.snakeCoordinates := by
  rcases (reachable_inv s hs).2.2 with h1 | h2
  · rw [h1] at hgo
    cases hgo
  · exact h2.1

/-- Witness for C3 (amended) at the mounted session. -/
theorem occupied_set_synced_when_running_witness :
    initialSessionState.snakeCoordinatesMap =
      syncSnakeCoordinatesMap initialSessionState.snakeCoordinates :=
  occupied_set_synced_when_running initialSessionState
    (Reachable.init [((5 : Int), (5 : Int))] initialSessionState (by decide)) rfl

/-- Counterexample to claim C3 as stated: the reachable state left behind
by the collided tick `crashRun1` has an occupied set that still reflects
the pre-tick body (ten cells including `(0, 0)`), while the body itself is
the shifted nine-cell list — the invariant fails in the state left behind
after a tick that transitions to GameOver. -/
theorem occupied_set_desync_after_gameover :
    (crashRun1.map fun s => s.gameOver) = some true ∧
    (crashRun1.map fun s =>
      decide (s.snakeCoordinatesMap = syncSnakeCoordinatesMap s.snakeCoordinates)) =
      some false ∧
    (crashRun1.map fun s =>
      decide (((0 : Int), (0 : Int)) ∈ s.snakeCoordinatesMap)) = some true ∧
    (crashRun1.map fun s =>
      decide (((0 : Int), (0 : Int)) ∈ cells s.snakeCoordinates)) = some false := by
  decide

/-! ### Claim C6 -/

/-- Claim C6 (amended): a tick fired on a GameOver session is a complete
no-op — the returned state is the input state, every component included.
The guard tests only `gameOver`, so a tick on an Idle (not started)
session is NOT a no-op: it performs an ordinary movement step (the
lifecycle never fires the driver while Idle, see the counterexample). -/
theorem gameover_tick_noop (s : GameState) (draws : List (Int × Int))
    (hgo : s.gameOver = true) : moveSnake s draws = some s :=
  moveSnake_gameOver s draws hgo

/-- Witness for C6 (amended) at a concrete GameOver session. -/
theorem gameover_tick_noop_witness : moveSnake overState [] = some overState :=
  gameover_tick_noop overState [] rfl

/-- Counterexample to claim C6 as stated: the mounted session `crashRun0`
is Idle (`isPlaying = 0`, not GameOver, no driver scheduled), yet calling
the tick on it moves the snake one cell and bumps the tick counter — the
body, occupied set and head all change. -/
theorem idle_tick_moves_snake :
    (crashRun0.map fun s => s.gameOver) = some false ∧
    (crashRun0.map fun s => s.isPlaying) = some 0 ∧
    (crashRun0.map fun s => cells s.snakeCoordinates) =
      some [(0, 0), (0, 1), (0, 2), (0, 3), (0, 4), (0, 5), (0, 6), (0, 7), (0, 8), (0, 9)] ∧
    (idleTickRun.map fun s => cells s.snakeCoordinates) =
      some [(0, 1), (0, 2), (0, 3), (0, 4), (0, 5), (0, 6), (0, 7), (0, 8), (0, 9), (0, 10)] ∧
    (idleTickRun.map fun s => s.isPlaying) = some 1 := by
  decide

/-! ### Claim C7 -/

theorem getNewDirection_dirKey (r : Direction) (d : Direction) :
    getNewDirection (dirKey r) d = r := by
  cases r <;> rfl

/-- Claim C7: for every current direction and requested direction `r`,
delivering `r`'s arrow key leaves the state unchanged when `r` is the
exact opposite of the current direction (UP↔DOWN, LEFT↔RIGHT) and
otherwise commits `r` as the current direction, touching nothing else;
rejection is a silent no-op, no error path exists. -/
theorem direction_change_spec (s : GameState) (r : Direction) :
    handleDirectionChange (dirKey r) s =
      (if (s.direction = Direction.UP ∧ r = Direction.DOWN)
          ∨ (s.direction = Direction.DOWN ∧ r = Direction.UP)
          ∨ (s.direction = Direction.LEFT ∧ r = Direction.RIGHT)
          ∨ (s.direction = Direction.RIGHT ∧ r = Direction.LEFT)
        then s else { s with direction := r }) := by
  obtain ⟨sc, d, map, food, pts, go, ip⟩ := s
  cases r <;> cases d <;>
    simp [handleDirectionChange, getNewDirection_dirKey]

/-! ### Claim C8 -/

/-- Claim C8: in every state reachable through the public operations the
snake body contains no duplicate cells and every body cell is inside the
48×48 grid. -/
theorem reachable_nodup_inbounds (s : GameState) (hs : Reachable s) :
    (cells s.snakeCoordinates).Nodup ∧ ∀ p ∈ cells s.snakeCoordinates, inBounds p :=
  ⟨(reachable_inv s hs).1, (reachable_inv s hs).2.1⟩

/-- Witness for C8 at the mounted session. -/
theorem reachable_nodup_inbounds_witness :
    (cells initialSessionState.snakeCoordinates).Nodup ∧
      ∀ p ∈ cells initialSessionState.snakeCoordinates, inBounds p :=
  reachable_nodup_inbounds initialSessionState
    (Reachable.init [((5 : Int), (5 : Int))] initialSessionState (by decide))

/-! ### Claim C9 -/

/-- Claim C9: food placement over an occupied set that does not cover the
whole grid terminates with a valid cell.  Termination of the rejection
sampling is relative to the random stream: some in-bounds stream makes it
terminate (any stream hitting a free cell, which happens almost surely),
and on every in-bounds stream containing at least one free draw the result
is an in-bounds cell outside the occupied set at the moment of placement. -/
theorem placeFood_terminates_free (occ : Finset (Int × Int))
    (hfree : ∃ p, inBounds p ∧ p ∉ occ) :
    (∃ draws c, populateFoodBall occ draws = some c ∧ inBounds c ∧ c ∉ occ) ∧
    (∀ draws : List (Int × Int), (∀ p ∈ draws, inBounds p) →
      (∃ p ∈ draws, p ∉ occ) →
      ∃ c, populateFoodBall occ draws = some c ∧ inBounds c ∧ c ∉ occ) := by
  constructor
  · obtain ⟨p, hin, hnot⟩ := hfree
    refine ⟨[p], p, ?_, hin, hnot⟩
    obtain ⟨r, q⟩ := p
    simp [populateFoodBall, hnot]
  · intro draws hall hex
    obtain ⟨c, hc⟩ := populateFoodBall_isSome occ draws hex
    exact ⟨c, hc, hall c (populateFoodBall_mem_draws occ draws c hc),
      populateFoodBall_not_mem occ draws c hc⟩

/-- Witness for C9 at the empty occupied set. -/
theorem placeFood_terminates_free_witness :
    (∃ draws c, populateFoodBall (∅ : Finset (Int × Int)) draws = some c ∧
      inBounds c ∧ c ∉ (∅ : Finset (Int × Int))) ∧
    (∀ draws : List (Int × Int), (∀ p ∈ draws, inBounds p) →
      (∃ p ∈ draws, p ∉ (∅ : Finset (Int × Int))) →
      ∃ c, populateFoodBall (∅ : Finset (Int × Int)) draws = some c ∧
        inBounds c ∧ c ∉ (∅ : Finset (Int × Int))) :=
  placeFood_terminates_free ∅ ⟨((0 : Int), (0 : Int)), by decide, by decide⟩
